import Mathlib

/-!
Verification of the batch subtitle-translation pipeline (translate → edit →
filter → summarize) against its natural-language specification.

The development shallowly embeds the pipeline's pure decision logic:

* the data model (`TranscriptSegment`, `TranslatedSegment`, `BatchItem`,
  `BatchTranslationResponse`, `FilterResponse`);
* the per-window translate decoding with identity fallback
  (`decodeTranslations`, `mapResults`, from `translate/llm.rs` and
  `translate/mod.rs`);
* the edit stage's line-by-line mapping (`edit_batch`);
* the filter stage's index-based removal with fail-open decoding
  (`filter_batch`);
* the OpenAI-compatible client's bounded schema-negotiation retry loop
  (`chat_completion_openai`, from `llm.rs`);
* the orchestrator's rolling-summary threading (`runPipeline`);
* the `provider/model` selector parsing (`parseModelSelector`).

External effects (HTTP transport, serde JSON parsing, the model itself) are
represented as oracle parameters: a parse oracle `String → Option _` stands
for `serde_json::from_str`, and a server oracle stands for the remote
endpoint. Everything downstream of those oracles is translated directly from
the Rust source.
-/

namespace Soksak

/-- Transcript segment as produced by the transcription stage
(`TranscriptSegment` in `transcribe`): start/end timestamps and source text. -/
structure TranscriptSegment where
  start : Int
  end_ : Int
  text : String
deriving DecidableEq, Repr

/-- Output segment of the translation pipeline (`TranslatedSegment` in
`translate/mod.rs`): timestamps copied from the input segment, the original
source text, and the translated text. -/
structure TranslatedSegment where
  start : Int
  end_ : Int
  original : String
  translated : String
deriving DecidableEq, Repr

/-- Provider-agnostic request unit (`BatchItem` in `translate/mod.rs`):
window-local id and text. -/
structure BatchItem where
  id : Nat
  text : String
deriving DecidableEq, Repr

/-- Reply unit (`BatchTranslationResponse` in `translate/mod.rs`). -/
structure BatchTranslationResponse where
  id : Nat
  translated_text : String
deriving DecidableEq, Repr

/-- Filter reply (`FilterResponse` in `translate/mod.rs`): window-local ids
to drop. The Rust code collects `remove_ids` into a `HashSet` before testing
membership; membership in the list is extensionally the same test. -/
structure FilterResponse where
  remove_ids : List Nat
deriving DecidableEq, Repr

/-- Chat message (`Message` in `llm.rs`). -/
structure Message where
  role : String
  content : String
deriving DecidableEq, Repr

/-! ### String helpers mirroring the Rust `str` methods used by the decoders -/

/-- Fuel-driven worker for `trimStartMatchesStr`. -/
def stripLeadingRep (pat : String) : Nat → String → String
  | 0, s => s
  | fuel + 1, s =>
    if pat.length ≠ 0 ∧ s.startsWith pat then
      stripLeadingRep pat fuel (s.drop pat.length)
    else s

/-- Rust `str::trim_start_matches`: repeatedly removes the pattern from the
front while it matches. -/
def trimStartMatchesStr (s pat : String) : String :=
  stripLeadingRep pat s.length s

/-- Fuel-driven worker for `trimEndMatchesStr`. -/
def stripTrailingRep (pat : String) : Nat → String → String
  | 0, s => s
  | fuel + 1, s =>
    if pat.length ≠ 0 ∧ s.endsWith pat then
      stripTrailingRep pat fuel (s.dropRight pat.length)
    else s

/-- Rust `str::trim_end_matches`: repeatedly removes the pattern from the
back while it matches. -/
def trimEndMatchesStr (s pat : String) : String :=
  stripTrailingRep pat s.length s

/-- Removes one trailing carriage return, as Rust `str::lines` does on each
newline-terminated line. -/
def stripCR (l : String) : String :=
  if l.endsWith "\r" then l.dropRight 1 else l

/-- Rust `str::lines`: split at every `\n`; each newline-terminated piece
loses a trailing `\r`; a final empty piece (from a trailing newline) is
dropped; a final unterminated piece is kept verbatim. -/
def rustLines (s : String) : List String :=
  let parts := s.splitOn "\n"
  let lastPart := (parts.getLast?).getD ""
  let initParts := (parts.dropLast).map stripCR
  if lastPart = "" then initParts else initParts ++ [lastPart]

/-- Checks whether `pat` matches at the head of `l`. -/
def headMatches : List Char → List Char → Bool
  | [], _ => true
  | _ :: _, [] => false
  | p :: ps, c :: cs => p == c && headMatches ps cs

/-- Checks whether the character list `pat` occurs contiguously in `l`;
worker for `containsSubstr`. -/
def hasSubList : List Char → List Char → Bool
  | pat, [] => headMatches pat []
  | pat, c :: cs => headMatches pat (c :: cs) || hasSubList pat cs

/-- Rust `str::contains` with a string pattern: substring occurrence. -/
def containsSubstr (s pat : String) : Bool :=
  hasSubList pat.data s.data

/-! ### Translate stage (`translate/llm.rs` lines 36–118, `translate/mod.rs`
lines 76–136) -/

/-- Batch construction of `process_translation`: each chunk element is given
its window-relative id. -/
def mkBatchItems : Nat → List TranscriptSegment → List BatchItem
  | _, [] => []
  | i, seg :: rest => { id := i, text := seg.text } :: mkBatchItems (i + 1) rest

/-- Identity fallback responses fabricated on translate decode failure
(`translate/llm.rs` lines 92–99): one response per batch item, with the
item's own text as the translated text. -/
def fallbackResponses : List BatchItem → List BatchTranslationResponse
  | [] => []
  | item :: rest => { id := item.id, translated_text := item.text } :: fallbackResponses rest

/-- Translate reply decoding (`translate/llm.rs` lines 84–101). The JSON
parse itself (`serde_json::from_str`) is external; its result is the
`parsed` argument. On parse failure the identity fallback list is fabricated
instead of signalling an error. -/
def decodeTranslations (items : List BatchItem)
    (parsed : Option (List BatchTranslationResponse)) : List BatchTranslationResponse :=
  match parsed with
  | some t => t
  | none => fallbackResponses items

/-- Per-position mapping of `process_translation` (`translate/llm.rs` lines
105–117, `translate/mod.rs` lines 123–135): timestamps and original text are
copied from the window segment; the translated text is looked up by id in
the decoded responses and falls back to the source text if the id is
missing. -/
def translatedAt (translations : List BatchTranslationResponse) (i : Nat)
    (seg : TranscriptSegment) : TranslatedSegment :=
  { start := seg.start
    end_ := seg.end_
    original := seg.text
    translated :=
      ((translations.find? (fun t => t.id == i)).map
        (fun t => t.translated_text)).getD seg.text }

/-- Output-mapping loop of `process_translation` (`translate/llm.rs` lines
104–118): re-walks the original window, not the decoded response list. -/
def mapResults (translations : List BatchTranslationResponse) :
    Nat → List TranscriptSegment → List TranslatedSegment
  | _, [] => []
  | i, seg :: rest => translatedAt translations i seg :: mapResults translations (i + 1) rest

/-- Markdown code-fence stripping applied to the raw translate reply
(`translate/llm.rs` lines 77–82). -/
def cleanTranslateReply (s : String) : String :=
  (trimEndMatchesStr (trimStartMatchesStr (trimStartMatchesStr s.trim "```json") "```") "```").trim

/-- The full translate decode-and-map step for one window, with the JSON
parse supplied as an oracle applied to the fence-stripped reply. -/
def translateStage (parse : String → Option (List BatchTranslationResponse))
    (chunk : List TranscriptSegment) (response_text : String) : List TranslatedSegment :=
  mapResults (decodeTranslations (mkBatchItems 0 chunk) (parse (cleanTranslateReply response_text))) 0 chunk

/-! ### Helper lemmas about the translate mapping -/

theorem mapResults_length (translations : List BatchTranslationResponse) :
    ∀ (chunk : List TranscriptSegment) (i : Nat),
      (mapResults translations i chunk).length = chunk.length := by
  intro chunk
  induction chunk with
  | nil => intro i; rfl
  | cons seg rest ih => intro i; simp [mapResults, ih]

theorem mapResults_getElem? (translations : List BatchTranslationResponse) :
    ∀ (chunk : List TranscriptSegment) (i j : Nat),
      (mapResults translations i chunk)[j]? =
        (chunk[j]?).map (translatedAt translations (i + j)) := by
  intro chunk
  induction chunk with
  | nil => intro i j; simp [mapResults]
  | cons seg rest ih =>
    intro i j
    cases j with
    | zero => simp [mapResults]
    | succ j =>
      have harith : i + 1 + j = i + (j + 1) := by omega
      simp [mapResults, ih (i + 1) j, harith]

theorem mkBatchItems_find?_fallback :
    ∀ (chunk : List TranscriptSegment) (i j : Nat) (seg : TranscriptSegment),
      chunk[j]? = some seg →
      (fallbackResponses (mkBatchItems i chunk)).find? (fun t => t.id == i + j) =
        some { id := i + j, translated_text := seg.text } := by
  intro chunk
  induction chunk with
  | nil => intro i j seg h; simp at h
  | cons c rest ih =>
    intro i j seg h
    cases j with
    | zero =>
      simp only [List.getElem?_cons_zero, Option.some.injEq] at h
      subst h
      simp [mkBatchItems, fallbackResponses, List.find?_cons]
    | succ j =>
      simp only [List.getElem?_cons_succ] at h
      have hne : (i == i + (j + 1)) = false := by
        simp
      have harith : i + 1 + j = i + (j + 1) := by omega
      have hrec := ih (i + 1) j seg h
      rw [harith] at hrec
      simp only [mkBatchItems, fallbackResponses, List.find?_cons]
      simp [hne, hrec]

/-! ### Edit stage (`translate/mod.rs` lines 180–269) -/

/-- Code-fence stripping applied to the edit reply (`translate/mod.rs` lines
244–248); unlike the translate/filter decoders it has no dedicated
three-backtick-json case. -/
def cleanEditReply (s : String) : String :=
  (trimEndMatchesStr (trimStartMatchesStr s.trim "```") "```").trim

/-- Mapping loop of `edit_batch` (`translate/mod.rs` lines 253–266): line
`i` of the cleaned reply, trimmed, replaces the translated text of input
position `i`; positions beyond the reply keep their prior translated
text. -/
def editLoop (refined_lines : List String) :
    Nat → List TranslatedSegment → List TranslatedSegment
  | _, [] => []
  | i, seg :: rest =>
    { seg with
      translated :=
        match refined_lines[i]? with
        | some line => line.trim
        | none => seg.translated } :: editLoop refined_lines (i + 1) rest

/-- The edit stage applied to one already-translated window and the raw
model reply (`translate/mod.rs` `edit_batch`). -/
def edit_batch (batch : List TranslatedSegment) (response_text : String) :
    List TranslatedSegment :=
  editLoop (rustLines (cleanEditReply response_text)) 0 batch

/-! ### Filter stage (`translate/mod.rs` lines 271–377, `translate/llm.rs`
lines 120–207) -/

/-- Code-fence stripping applied to the filter reply (`translate/mod.rs`
lines 356–361). -/
def cleanFilterReply (s : String) : String :=
  (trimEndMatchesStr (trimStartMatchesStr (trimStartMatchesStr s.trim "```json") "```") "```").trim

/-- Removal loop of `filter_batch` (`translate/mod.rs` lines 366–371): keep
each item whose enumeration index is not in the remove set. -/
def filterLoop (remove_ids : List Nat) :
    Nat → List TranslatedSegment → List TranslatedSegment
  | _, [] => []
  | i, item :: rest =>
    if remove_ids.contains i then filterLoop remove_ids (i + 1) rest
    else item :: filterLoop remove_ids (i + 1) rest

/-- Decode-dependent part of `filter_batch` (`translate/mod.rs` lines
363–376): on a decoded `FilterResponse` drop the listed indices; on decode
failure fail open and return the batch unchanged. -/
def filter_batch (batch : List TranslatedSegment) (parsed : Option FilterResponse) :
    List TranslatedSegment :=
  match parsed with
  | some filter_res => filterLoop filter_res.remove_ids 0 batch
  | none => batch

/-- The filter stage applied to one window and the raw model reply, with the
JSON parse supplied as an oracle applied to the fence-stripped reply. -/
def filterStage (parse : String → Option FilterResponse)
    (batch : List TranslatedSegment) (filter_response_text : String) :
    List TranslatedSegment :=
  filter_batch batch (parse (cleanFilterReply filter_response_text))

/-! ### OpenAI-compatible client retry loop (`llm.rs` lines 42–151) -/

/-- Request body of the OpenAI-compatible path, reduced to the fields the
retry logic observes: the optional Ollama `format` field and the optional
`response_format` field (their JSON payloads kept abstract as strings). -/
structure OpenAiBody where
  model : String
  messages : List Message
  format : Option String
  response_format : Option String
deriving DecidableEq, Repr

/-- Outcome of one HTTP POST as the client observes it: a 2xx response with
extractable content, a 2xx response whose envelope cannot be parsed, or a
non-2xx response with its error text. -/
inductive HttpResult where
  | ok (content : String)
  | okBadEnvelope
  | err (error_text : String)
deriving DecidableEq, Repr

/-- Error signature that triggers the single schema-negotiation retry
(`llm.rs` lines 135–138): the error text mentions both `response_format`
and `json_schema`. -/
def hasRetrySignature (error_text : String) : Bool :=
  containsSubstr error_text "response_format" && containsSubstr error_text "json_schema"

/-- Removal of the `response_format` field from the request body
(`llm.rs` lines 142–144). -/
def stripRespFormat (b : OpenAiBody) : OpenAiBody :=
  { b with response_format := none }

/-- The retry loop of `chat_completion_openai` (`llm.rs` lines 112–150).
The remote endpoint is an oracle giving, per attempt index and request
body, the observed `HttpResult`. The loop's `retry_count` starts at 0 and
the retry branch requires it to be 0, so two iterations of fuel are
exhaustive; the accumulated list records every request body sent. -/
def openaiLoop (server : Nat → OpenAiBody → HttpResult) :
    Nat → Nat → Nat → OpenAiBody → List OpenAiBody →
    List OpenAiBody × Except String String
  | 0, _, _, _, sent => (sent, Except.error "unreachable: loop fuel exhausted")
  | fuel + 1, attempt, retry_count, current_body, sent =>
    let sent' := sent ++ [current_body]
    match server attempt current_body with
    | HttpResult.ok content => (sent', Except.ok content)
    | HttpResult.okBadEnvelope => (sent', Except.error "Failed to parse LLM response content")
    | HttpResult.err e =>
      if retry_count == 0 && hasRetrySignature e then
        openaiLoop server fuel (attempt + 1) (retry_count + 1) (stripRespFormat current_body) sent'
      else (sent', Except.error ("LLM API error: " ++ e))

/-- One call of `chat_completion_openai` against a server oracle: returns
the list of request bodies actually sent and the call's result. -/
def chat_completion_openai (body : OpenAiBody) (server : Nat → OpenAiBody → HttpResult) :
    List OpenAiBody × Except String String :=
  openaiLoop server 2 0 0 body []

/-! ### Pipeline orchestration and the rolling summary
(`translate/llm.rs` lines 29–243, `translate/mod.rs` lines 43–177) -/

/-- Per-window oracle data: the parsed translate reply (`none` models a
serde parse failure), the raw edit reply when the edit stage is configured,
and, when filters are configured, the parsed filter reply (`some none`
models a filter decode failure). -/
structure WindowReplies where
  translateParsed : Option (List BatchTranslationResponse)
  editReply : Option String
  filterParsed : Option (Option FilterResponse)

/-- Window output immediately after the translate step: decode (with
identity fallback) and map back over the original window. -/
def translatedWindow (chunk : List TranscriptSegment) (r : WindowReplies) :
    List TranslatedSegment :=
  mapResults (decodeTranslations (mkBatchItems 0 chunk) r.translateParsed) 0 chunk

/-- Window output after the optional edit step. -/
def editedWindow (chunk : List TranscriptSegment) (r : WindowReplies) :
    List TranslatedSegment :=
  match r.editReply with
  | some reply => edit_batch (translatedWindow chunk r) reply
  | none => translatedWindow chunk r

/-- Output of one window after translate, optional edit, and optional
filter, in the orchestrator's order. -/
def windowOutput (chunk : List TranscriptSegment) (r : WindowReplies) :
    List TranslatedSegment :=
  match r.filterParsed with
  | some parsed => filter_batch (editedWindow chunk r) parsed
  | none => editedWindow chunk r

/-- Summary-update prompt (`translate/llm.rs` lines 217–223): built from the
old summary and the window's joined translated text, and nothing else. -/
def summaryPrompt (old_summary new_text : String) : String :=
  "Update the summary of the conversation based on the new text.\nOld Summary: "
    ++ old_summary ++ "\nNew Text: " ++ new_text
    ++ "\nOutput ONLY the updated summary in one or two sentences."

/-- The window text fed to the summary update (`translate/llm.rs` lines
211–215): the translated fields joined with spaces. -/
def recentText (results : List TranslatedSegment) : String :=
  String.intercalate " " (results.map (fun s => s.translated))

/-- Summary update for one completed window (`translate/llm.rs` lines
209–236): skipped when the window's surviving output is empty, otherwise
the summary model's reply to `summaryPrompt`, trimmed. The summary model is
an oracle from prompt to reply text. -/
def updateSummary (summaryModel : String → String) (summary : String)
    (results : List TranslatedSegment) : String :=
  if results.isEmpty then summary
  else (summaryModel (summaryPrompt summary (recentText results))).trim

/-- Sentinel initial rolling summary (`translate/llm.rs` line 30,
`translate/mod.rs` line 44). -/
def initialSummary : String := "No context yet."

/-- The orchestrator's window loop: each window's output is appended to the
run output, and the rolling summary is threaded through sequentially. -/
def runPipeline (summaryModel : String → String) :
    String → List (List TranscriptSegment × WindowReplies) →
    List TranslatedSegment × String
  | summary, [] => ([], summary)
  | summary, (chunk, r) :: rest =>
    let out := windowOutput chunk r
    let summary' := updateSummary summaryModel summary out
    let tail := runPipeline summaryModel summary' rest
    (out ++ tail.1, tail.2)

/-- The rolling summary after processing a list of windows from a given
summary state. -/
def finalSummary (summaryModel : String → String) (summary : String)
    (windows : List (List TranscriptSegment × WindowReplies)) : String :=
  (runPipeline summaryModel summary windows).2

/-- Whole-run entry point (`process_translation`): the pipeline starting
from the sentinel summary. -/
def process_translation (summaryModel : String → String)
    (windows : List (List TranscriptSegment × WindowReplies)) :
    List TranslatedSegment × String :=
  runPipeline summaryModel initialSummary windows

/-! ### Provider/model selector parsing (`translate/llm.rs` line 18,
`translate/mod.rs` lines 53, 186–189, 311–313, 320–322) -/

/-- Rust `str::split_once('/')`: split at the first slash, if any. -/
def splitOnceSlash : List Char → Option (List Char × List Char)
  | [] => none
  | c :: cs =>
    if c = '/' then some ([], cs)
    else
      match splitOnceSlash cs with
      | some (before, after) => some (c :: before, after)
      | none => none

/-- Selector parsing used by every stage:
`llm_str.split_once('/').unwrap_or((llm_str, "default"))`. -/
def parseModelSelector (llm_str : String) : String × String :=
  match splitOnceSlash llm_str.data with
  | some (provider_id, model_name) => (String.mk provider_id, String.mk model_name)
  | none => (llm_str, "default")

/-! ### Helper lemmas about the edit and filter loops -/

theorem editLoop_length (refined_lines : List String) :
    ∀ (batch : List TranslatedSegment) (i : Nat),
      (editLoop refined_lines i batch).length = batch.length := by
  intro batch
  induction batch with
  | nil => intro i; rfl
  | cons seg rest ih => intro i; simp [editLoop, ih]

theorem editLoop_getElem? (refined_lines : List String) :
    ∀ (batch : List TranslatedSegment) (i j : Nat),
      (editLoop refined_lines i batch)[j]? =
        (batch[j]?).map (fun seg =>
          { seg with
            translated :=
              match refined_lines[i + j]? with
              | some line => line.trim
              | none => seg.translated }) := by
  intro batch
  induction batch with
  | nil => intro i j; simp [editLoop]
  | cons seg rest ih =>
    intro i j
    cases j with
    | zero => simp [editLoop]
    | succ j =>
      have harith : i + 1 + j = i + (j + 1) := by omega
      simp [editLoop, ih (i + 1) j, harith]

theorem filterLoop_sublist (remove_ids : List Nat) :
    ∀ (batch : List TranslatedSegment) (i : Nat),
      List.Sublist (filterLoop remove_ids i batch) batch := by
  intro batch
  induction batch with
  | nil => intro i; simp [filterLoop]
  | cons x rest ih =>
    intro i
    by_cases h : remove_ids.contains i
    · simp only [filterLoop, if_pos h]
      exact List.Sublist.cons x (ih (i + 1))
    · simp only [filterLoop, if_neg h]
      exact List.Sublist.cons₂ x (ih (i + 1))

theorem filterLoop_eq_enumFrom (remove_ids : List Nat) :
    ∀ (batch : List TranslatedSegment) (i : Nat),
      filterLoop remove_ids i batch =
        ((List.enumFrom i batch).filter
          (fun p => !(remove_ids.contains p.1))).map Prod.snd := by
  intro batch
  induction batch with
  | nil => intro i; simp [filterLoop]
  | cons x rest ih =>
    intro i
    by_cases h : remove_ids.contains i
    · have hm : i ∈ remove_ids := by simpa using h
      simp [filterLoop, h, ih (i + 1), List.filter_cons, hm]
    · have hm : i ∉ remove_ids := by simpa using h
      simp [filterLoop, h, ih (i + 1), List.filter_cons, hm]

/-! ### Helper lemmas about the pipeline fold -/

theorem finalSummary_nil (summaryModel : String → String) (s : String) :
    finalSummary summaryModel s [] = s := rfl

theorem finalSummary_cons (summaryModel : String → String) (s : String)
    (chunk : List TranscriptSegment) (r : WindowReplies)
    (rest : List (List TranscriptSegment × WindowReplies)) :
    finalSummary summaryModel s ((chunk, r) :: rest) =
      finalSummary summaryModel
        (updateSummary summaryModel s (windowOutput chunk r)) rest := by
  simp [finalSummary, runPipeline]

theorem finalSummary_append (summaryModel : String → String) :
    ∀ (xs ys : List (List TranscriptSegment × WindowReplies)) (s : String),
      finalSummary summaryModel s (xs ++ ys) =
        finalSummary summaryModel (finalSummary summaryModel s xs) ys := by
  intro xs
  induction xs with
  | nil => intro ys s; simp [finalSummary_nil]
  | cons w rest ih =>
    intro ys s
    obtain ⟨chunk, r⟩ := w
    rw [List.cons_append, finalSummary_cons, finalSummary_cons, ih]

/-! ### Helper lemmas about selector parsing -/

theorem splitOnceSlash_eq_none :
    ∀ (l : List Char), l.contains '/' = false → splitOnceSlash l = none := by
  intro l
  induction l with
  | nil => intro h; rfl
  | cons c cs ih =>
    intro h
    simp only [List.contains_cons, Bool.or_eq_false_iff] at h
    have hc : ¬ (c = '/') := by
      intro hcc
      subst hcc
      simp at h
    simp [splitOnceSlash, hc, ih h.2]

theorem splitOnceSlash_eq_some :
    ∀ (pre post : List Char), '/' ∉ pre →
      splitOnceSlash (pre ++ '/' :: post) = some (pre, post) := by
  intro pre
  induction pre with
  | nil => intro post h; simp [splitOnceSlash]
  | cons c cs ih =>
    intro post h
    have hc : ¬ (c = '/') := by
      intro hcc
      exact h (by simp [hcc])
    have hrec := ih post (fun hm => h (List.mem_cons_of_mem c hm))
    simp [splitOnceSlash, hc, hrec]

/-! ### Concrete fixtures used by the witness theorems -/

/-- Concrete already-translated three-item window. -/
def sampleBatch : List TranslatedSegment :=
  [⟨0, 1, "a", "ta"⟩, ⟨1, 2, "b", "tb"⟩, ⟨2, 3, "c", "tc"⟩]

/-- Concrete OpenAI-compatible request body carrying a response-format
field. -/
def sampleBody : OpenAiBody :=
  ⟨"gpt-test", [⟨"user", "hi"⟩], none, some "json_schema_payload"⟩

/-- Server oracle that rejects schema mode on the first attempt (with the
error signature the client looks for) and succeeds on the second. -/
def sampleServer : Nat → OpenAiBody → HttpResult :=
  fun attempt _ =>
    if attempt == 0 then
      HttpResult.err "response_format must be json_schema or text"
    else HttpResult.ok "ok-content"

/-- Window replies with a decoded translate response and no edit or filter
stage configured. -/
def sampleReplies : WindowReplies :=
  ⟨some [⟨0, "Bonjour"⟩], none, none⟩

/-! ### Membership helpers for the composed window -/

theorem mem_editedWindow_of_mem_windowOutput
    (chunk : List TranscriptSegment) (r : WindowReplies) (t : TranslatedSegment)
    (h : t ∈ windowOutput chunk r) : t ∈ editedWindow chunk r := by
  unfold windowOutput at h
  cases hf : r.filterParsed with
  | none => rw [hf] at h; exact h
  | some parsed =>
    rw [hf] at h
    cases parsed with
    | none => exact h
    | some filter_res =>
      exact (filterLoop_sublist filter_res.remove_ids (editedWindow chunk r) 0).mem h

theorem editedWindow_getElem?_fields
    (chunk : List TranscriptSegment) (r : WindowReplies) (j : Nat) (t : TranslatedSegment)
    (h : (editedWindow chunk r)[j]? = some t) :
    ∃ u : TranslatedSegment, (translatedWindow chunk r)[j]? = some u ∧
      t.start = u.start ∧ t.end_ = u.end_ ∧ t.original = u.original := by
  unfold editedWindow at h
  cases he : r.editReply with
  | none =>
    rw [he] at h
    exact ⟨t, h, rfl, rfl, rfl⟩
  | some reply =>
    rw [he] at h
    unfold edit_batch at h
    rw [editLoop_getElem?] at h
    cases hu : (translatedWindow chunk r)[j]? with
    | none => rw [hu] at h; simp at h
    | some u =>
      rw [hu] at h
      have h' := Option.some.inj h
      exact ⟨u, rfl, by rw [← h'], by rw [← h'], by rw [← h']⟩

theorem translatedWindow_getElem?_fields
    (chunk : List TranscriptSegment) (r : WindowReplies) (j : Nat) (u : TranslatedSegment)
    (h : (translatedWindow chunk r)[j]? = some u) :
    ∃ seg : TranscriptSegment, chunk[j]? = some seg ∧
      u.start = seg.start ∧ u.end_ = seg.end_ ∧ u.original = seg.text := by
  unfold translatedWindow at h
  rw [mapResults_getElem?] at h
  cases hs : chunk[j]? with
  | none => rw [hs] at h; simp at h
  | some seg =>
    rw [hs] at h
    have h' := Option.some.inj h
    exact ⟨seg, rfl, by rw [← h']; rfl, by rw [← h']; rfl, by rw [← h']; rfl⟩

/-! ### Claim theorems -/

/-- C1: for every window, the output immediately after Translate has exactly
one `TranslatedSegment` per input segment (`len(output) = len(input)`), for
every decoded response list including the identity fallback and hence even
under total decode failure, and the Edit step preserves that length as
well. -/
theorem c1_stage_output_length_equals_window_length :
    ∀ (translations : List BatchTranslationResponse) (chunk : List TranscriptSegment)
      (parse : String → Option (List BatchTranslationResponse))
      (batch : List TranslatedSegment) (response_text raw_translate : String),
      (mapResults translations 0 chunk).length = chunk.length ∧
      (translateStage parse chunk raw_translate).length = chunk.length ∧
      (edit_batch batch response_text).length = batch.length := by
  intro translations chunk parse batch response_text raw_translate
  refine ⟨mapResults_length translations chunk 0, ?_, ?_⟩
  · exact mapResults_length _ chunk 0
  · exact editLoop_length _ batch 0

/-- C2: at any window position whose id is absent from the decoded response
list the translated text falls back to that position's source text, and at
any position whose id is found the translated text is the found response's
`translated_text`. -/
theorem c2_identity_fallback_per_position :
    ∀ (translations : List BatchTranslationResponse) (chunk : List TranscriptSegment)
      (j : Nat) (seg : TranscriptSegment),
      chunk[j]? = some seg →
      ((∀ t ∈ translations, t.id ≠ j) →
        (mapResults translations 0 chunk)[j]? =
          some { start := seg.start, end_ := seg.end_, original := seg.text,
                 translated := seg.text }) ∧
      (∀ t, translations.find? (fun t => t.id == j) = some t →
        (mapResults translations 0 chunk)[j]? =
          some { start := seg.start, end_ := seg.end_, original := seg.text,
                 translated := t.translated_text }) := by
  intro translations chunk j seg hj
  constructor
  · intro habs
    have hnone : translations.find? (fun t => t.id == j) = none := by
      rw [List.find?_eq_none]
      intro x hx
      simp [habs x hx]
    rw [mapResults_getElem? translations chunk 0 j, hj]
    simp [translatedAt, Nat.zero_add, hnone]
  · intro t ht
    rw [mapResults_getElem? translations chunk 0 j, hj]
    simp [translatedAt, Nat.zero_add, ht]

/-- C3: when the translate reply fails to parse as JSON after code-fence
stripping, decoding fabricates the identity result without signalling an
error: the window output still has one segment per input and every
position's translated text equals its source text. -/
theorem c3_translate_parse_failure_yields_identity :
    ∀ (parse : String → Option (List BatchTranslationResponse))
      (chunk : List TranscriptSegment) (response_text : String),
      parse (cleanTranslateReply response_text) = none →
      (translateStage parse chunk response_text).length = chunk.length ∧
      ∀ (j : Nat) (seg : TranscriptSegment), chunk[j]? = some seg →
        (translateStage parse chunk response_text)[j]? =
          some { start := seg.start, end_ := seg.end_, original := seg.text,
                 translated := seg.text } := by
  intro parse chunk response_text hfail
  unfold translateStage
  rw [hfail]
  refine ⟨mapResults_length _ chunk 0, ?_⟩
  intro j seg hj
  rw [mapResults_getElem?, hj]
  have hfind := mkBatchItems_find?_fallback chunk 0 j seg hj
  rw [Nat.zero_add] at hfind
  simp [translatedAt, decodeTranslations, Nat.zero_add, hfind]

/-- C4: when the filter reply decodes to a `FilterResponse`, the output is
exactly the input segments whose window-local index is not in `remove_ids`,
in order; the output is a sublist of the input, and for every reply
(decodable or not) the filtered length never exceeds the input length. -/
theorem c4_filter_removes_exactly_the_listed_indices :
    (∀ (parse : String → Option FilterResponse) (batch : List TranslatedSegment)
       (reply : String) (filter_res : FilterResponse),
       parse (cleanFilterReply reply) = some filter_res →
       filterStage parse batch reply =
         (batch.enum.filter
           (fun p => !(filter_res.remove_ids.contains p.1))).map Prod.snd ∧
       List.Sublist (filterStage parse batch reply) batch) ∧
    (∀ (parse : String → Option FilterResponse) (batch : List TranslatedSegment)
       (reply : String),
       (filterStage parse batch reply).length ≤ batch.length) := by
  constructor
  · intro parse batch reply filter_res hp
    unfold filterStage
    rw [hp]
    constructor
    · simpa [List.enum] using filterLoop_eq_enumFrom filter_res.remove_ids batch 0
    · exact filterLoop_sublist filter_res.remove_ids batch 0
  · intro parse batch reply
    unfold filterStage
    cases hp : parse (cleanFilterReply reply) with
    | none => simp [filter_batch]
    | some filter_res =>
      exact (filterLoop_sublist filter_res.remove_ids batch 0).length_le

/-- C5: when the filter reply cannot be decoded, the filter stage fails
open and returns the input window unchanged. -/
theorem c5_filter_decode_failure_fails_open :
    ∀ (parse : String → Option FilterResponse) (batch : List TranslatedSegment)
      (reply : String),
      parse (cleanFilterReply reply) = none →
      filterStage parse batch reply = batch := by
  intro parse batch reply h
  unfold filterStage
  rw [h]
  rfl

/-! ### Helper lemmas for the retry loop and the remaining claims -/

theorem openaiLoop_step (server : Nat → OpenAiBody → HttpResult)
    (fuel attempt retry_count : Nat) (b : OpenAiBody) (sent : List OpenAiBody) :
    openaiLoop server (fuel + 1) attempt retry_count b sent =
      match server attempt b with
      | HttpResult.ok content => (sent ++ [b], Except.ok content)
      | HttpResult.okBadEnvelope =>
        (sent ++ [b], Except.error "Failed to parse LLM response content")
      | HttpResult.err e =>
        if retry_count == 0 && hasRetrySignature e then
          openaiLoop server fuel (attempt + 1) (retry_count + 1) (stripRespFormat b) (sent ++ [b])
        else (sent ++ [b], Except.error ("LLM API error: " ++ e)) := rfl

theorem chat_completion_openai_ok (body : OpenAiBody)
    (server : Nat → OpenAiBody → HttpResult) (c : String)
    (h0 : server 0 body = HttpResult.ok c) :
    chat_completion_openai body server = ([body], Except.ok c) := by
  have h2 : (2 : Nat) = 1 + 1 := rfl
  rw [chat_completion_openai, h2, openaiLoop_step, h0]
  rfl

theorem chat_completion_openai_err_nosig (body : OpenAiBody)
    (server : Nat → OpenAiBody → HttpResult) (e : String)
    (h0 : server 0 body = HttpResult.err e) (hsig : hasRetrySignature e = false) :
    chat_completion_openai body server =
      ([body], Except.error ("LLM API error: " ++ e)) := by
  have h2 : (2 : Nat) = 1 + 1 := rfl
  rw [chat_completion_openai, h2, openaiLoop_step, h0]
  simp [hsig]

theorem chat_completion_openai_err_sig (body : OpenAiBody)
    (server : Nat → OpenAiBody → HttpResult) (e : String)
    (h0 : server 0 body = HttpResult.err e) (hsig : hasRetrySignature e = true) :
    chat_completion_openai body server =
      openaiLoop server 1 1 1 (stripRespFormat body) [body] := by
  have h2 : (2 : Nat) = 1 + 1 := rfl
  rw [chat_completion_openai, h2, openaiLoop_step, h0]
  simp [hsig]

theorem openaiLoop_second_ok (server : Nat → OpenAiBody → HttpResult)
    (b : OpenAiBody) (sent : List OpenAiBody) (c : String)
    (h1 : server 1 b = HttpResult.ok c) :
    openaiLoop server 1 1 1 b sent = (sent ++ [b], Except.ok c) := by
  have h1' : (1 : Nat) = 0 + 1 := rfl
  rw [h1', openaiLoop_step, h1]

theorem openaiLoop_second_err (server : Nat → OpenAiBody → HttpResult)
    (b : OpenAiBody) (sent : List OpenAiBody) (e' : String)
    (h1 : server 1 b = HttpResult.err e') :
    openaiLoop server 1 1 1 b sent =
      (sent ++ [b], Except.error ("LLM API error: " ++ e')) := by
  have h1' : (1 : Nat) = 0 + 1 := rfl
  rw [h1', openaiLoop_step, h1]
  simp

theorem openaiLoop_second_bad (server : Nat → OpenAiBody → HttpResult)
    (b : OpenAiBody) (sent : List OpenAiBody)
    (h1 : server 1 b = HttpResult.okBadEnvelope) :
    openaiLoop server 1 1 1 b sent =
      (sent ++ [b], Except.error "Failed to parse LLM response content") := by
  have h1' : (1 : Nat) = 0 + 1 := rfl
  rw [h1', openaiLoop_step, h1]

theorem chat_completion_openai_bad (body : OpenAiBody)
    (server : Nat → OpenAiBody → HttpResult)
    (h0 : server 0 body = HttpResult.okBadEnvelope) :
    chat_completion_openai body server =
      ([body], Except.error "Failed to parse LLM response content") := by
  have h2 : (2 : Nat) = 1 + 1 := rfl
  rw [chat_completion_openai, h2, openaiLoop_step, h0]
  rfl

theorem edit_batch_getElem?_fields (batch : List TranslatedSegment)
    (response_text : String) (j : Nat) (t : TranslatedSegment)
    (h : (edit_batch batch response_text)[j]? = some t) :
    ∃ u : TranslatedSegment, batch[j]? = some u ∧
      t.start = u.start ∧ t.end_ = u.end_ ∧ t.original = u.original := by
  unfold edit_batch at h
  rw [editLoop_getElem?] at h
  cases hu : batch[j]? with
  | none => rw [hu] at h; simp at h
  | some u =>
    rw [hu] at h
    have h' := Option.some.inj h
    exact ⟨u, rfl, by rw [← h'], by rw [← h'], by rw [← h']⟩

theorem filter_batch_sublist (batch : List TranslatedSegment)
    (parsed : Option FilterResponse) :
    List.Sublist (filter_batch batch parsed) batch := by
  cases parsed with
  | none => exact List.Sublist.refl batch
  | some filter_res => exact filterLoop_sublist filter_res.remove_ids batch 0

/-- C6: on the OpenAI-compatible path, a non-2xx first response whose error
text mentions both `response_format` and `json_schema` triggers exactly one
retry with the `response_format` field removed; a first error without that
signature, and any failure of the second attempt, terminate with a
transport error; no call ever sends more than two requests. -/
theorem c6_openai_schema_retry_exactly_once :
    ∀ (body : OpenAiBody) (server : Nat → OpenAiBody → HttpResult),
      (chat_completion_openai body server).1.length ≤ 2 ∧
      (∀ c, server 0 body = HttpResult.ok c →
        chat_completion_openai body server = ([body], Except.ok c)) ∧
      (∀ e, server 0 body = HttpResult.err e → hasRetrySignature e = false →
        chat_completion_openai body server =
          ([body], Except.error ("LLM API error: " ++ e))) ∧
      (∀ e, server 0 body = HttpResult.err e → hasRetrySignature e = true →
        (chat_completion_openai body server).1 = [body, stripRespFormat body] ∧
        (∀ c, server 1 (stripRespFormat body) = HttpResult.ok c →
          (chat_completion_openai body server).2 = Except.ok c) ∧
        (∀ e', server 1 (stripRespFormat body) = HttpResult.err e' →
          (chat_completion_openai body server).2 =
            Except.error ("LLM API error: " ++ e'))) := by
  intro body server
  refine ⟨?_, ?_, ?_, ?_⟩
  · cases h0 : server 0 body with
    | ok c => rw [chat_completion_openai_ok body server c h0]; simp
    | okBadEnvelope => rw [chat_completion_openai_bad body server h0]; simp
    | err e =>
      cases hsig : hasRetrySignature e with
      | false => rw [chat_completion_openai_err_nosig body server e h0 hsig]; simp
      | true =>
        rw [chat_completion_openai_err_sig body server e h0 hsig]
        cases h1 : server 1 (stripRespFormat body) with
        | ok c => rw [openaiLoop_second_ok server _ _ c h1]; simp
        | okBadEnvelope => rw [openaiLoop_second_bad server _ _ h1]; simp
        | err e' => rw [openaiLoop_second_err server _ _ e' h1]; simp
  · intro c h0
    exact chat_completion_openai_ok body server c h0
  · intro e h0 hsig
    exact chat_completion_openai_err_nosig body server e h0 hsig
  · intro e h0 hsig
    rw [chat_completion_openai_err_sig body server e h0 hsig]
    refine ⟨?_, ?_, ?_⟩
    · cases h1 : server 1 (stripRespFormat body) with
      | ok c => rw [openaiLoop_second_ok server _ _ c h1]; rfl
      | okBadEnvelope => rw [openaiLoop_second_bad server _ _ h1]; rfl
      | err e' => rw [openaiLoop_second_err server _ _ e' h1]; rfl
    · intro c h1
      rw [openaiLoop_second_ok server _ _ c h1]
    · intro e' h1
      rw [openaiLoop_second_err server _ _ e' h1]

/-- C7: every segment surviving the translate → edit → filter window
pipeline carries the start, end and source text of the input segment it
came from; the edit mapping rewrites only the translated field, and the
filter only drops elements (its output is a sublist). -/
theorem c7_timestamps_and_original_pass_through :
    (∀ (chunk : List TranscriptSegment) (r : WindowReplies) (t : TranslatedSegment),
      t ∈ windowOutput chunk r →
      ∃ (j : Nat) (seg : TranscriptSegment), chunk[j]? = some seg ∧
        t.start = seg.start ∧ t.end_ = seg.end_ ∧ t.original = seg.text) ∧
    (∀ (batch : List TranslatedSegment) (response_text : String) (j : Nat)
       (t : TranslatedSegment),
      (edit_batch batch response_text)[j]? = some t →
      ∃ u : TranslatedSegment, batch[j]? = some u ∧
        t.start = u.start ∧ t.end_ = u.end_ ∧ t.original = u.original) ∧
    (∀ (batch : List TranslatedSegment) (parsed : Option FilterResponse),
      List.Sublist (filter_batch batch parsed) batch) := by
  refine ⟨?_, edit_batch_getElem?_fields, filter_batch_sublist⟩
  intro chunk r t hmem
  have h1 := mem_editedWindow_of_mem_windowOutput chunk r t hmem
  obtain ⟨j, hj⟩ := List.mem_iff_getElem?.mp h1
  obtain ⟨u, hu, hts, hte, hto⟩ := editedWindow_getElem?_fields chunk r j t hj
  obtain ⟨seg, hseg, hus, hue, huo⟩ := translatedWindow_getElem?_fields chunk r j u hu
  exact ⟨j, seg, hseg, by rw [hts, hus], by rw [hte, hue], by rw [hto, huo]⟩

/-- C8: the rolling summary starts at the sentinel value, the summary after
a run of windows is obtained window by window from the previous summary and
that window's output alone (no later window enters), and the update depends
on the window's output only through its translated texts. -/
theorem c8_rolling_summary_sequential_threading :
    initialSummary = "No context yet." ∧
    (∀ (summaryModel : String → String) (s : String)
       (windows : List (List TranscriptSegment × WindowReplies))
       (chunk : List TranscriptSegment) (r : WindowReplies),
       finalSummary summaryModel s (windows ++ [(chunk, r)]) =
         updateSummary summaryModel (finalSummary summaryModel s windows)
           (windowOutput chunk r)) ∧
    (∀ (summaryModel : String → String) (s : String)
       (xs ys : List (List TranscriptSegment × WindowReplies)),
       finalSummary summaryModel s (xs ++ ys) =
         finalSummary summaryModel (finalSummary summaryModel s xs) ys) ∧
    (∀ (summaryModel : String → String) (s : String)
       (out out' : List TranslatedSegment),
       out.map (fun t => t.translated) = out'.map (fun t => t.translated) →
       updateSummary summaryModel s out = updateSummary summaryModel s out') := by
  refine ⟨rfl, ?_, fun sm s xs ys => finalSummary_append sm xs ys s, ?_⟩
  · intro summaryModel s windows chunk r
    rw [finalSummary_append, finalSummary_cons, finalSummary_nil]
  · intro summaryModel s out out' h
    have hemp : out.isEmpty = out'.isEmpty := by
      cases out with
      | nil =>
        cases out' with
        | nil => rfl
        | cons b m => simp at h
      | cons a l =>
        cases out' with
        | nil => simp at h
        | cons b m => rfl
    unfold updateSummary recentText
    rw [hemp, h]

/-- C9: the edit stage maps the cleaned reply's lines positionally onto the
window — output position `j` is line `j` trimmed when that line exists and
the prior translated text otherwise — with the output length always equal
to the input length (no merge, split or reorder). -/
theorem c9_edit_positionwise_line_mapping :
    ∀ (batch : List TranslatedSegment) (response_text : String),
      edit_batch batch response_text =
        editLoop (rustLines (cleanEditReply response_text)) 0 batch ∧
      ∀ (refined_lines : List String),
        (editLoop refined_lines 0 batch).length = batch.length ∧
        ∀ (j : Nat) (seg : TranslatedSegment), batch[j]? = some seg →
          (∀ line, refined_lines[j]? = some line →
            (editLoop refined_lines 0 batch)[j]? =
              some { seg with translated := line.trim }) ∧
          (refined_lines[j]? = none →
            (editLoop refined_lines 0 batch)[j]? = some seg) := by
  intro batch response_text
  refine ⟨rfl, ?_⟩
  intro refined_lines
  refine ⟨editLoop_length refined_lines batch 0, ?_⟩
  intro j seg hj
  constructor
  · intro line hline
    rw [editLoop_getElem?, hj]
    simp [Nat.zero_add, hline]
  · intro hnone
    rw [editLoop_getElem?, hj]
    simp [Nat.zero_add, hnone]

/-- C10: the provider/model selector splits at the first slash into
provider id and model name; a selector without a slash becomes the provider
id with the model name silently defaulting to the literal `default`, not an
error. -/
theorem c10_model_selector_first_slash_split :
    ∀ (llm_str : String),
      (llm_str.data.contains '/' = false →
        parseModelSelector llm_str = (llm_str, "default")) ∧
      (∀ (pre post : List Char),
        llm_str.data = pre ++ '/' :: post → '/' ∉ pre →
        parseModelSelector llm_str = (String.mk pre, String.mk post)) := by
  intro llm_str
  constructor
  · intro h
    unfold parseModelSelector
    rw [splitOnceSlash_eq_none llm_str.data h]
  · intro pre post hdata hpre
    unfold parseModelSelector
    rw [hdata, splitOnceSlash_eq_some pre post hpre]

/-! ### Witness theorems: each applies its claim's theorem at a concrete
input and discharges the hypotheses there -/

/-- Witness for C2: id 1 is absent from the decoded responses, so position
1 falls back to its own source text. -/
theorem c2_identity_fallback_witness :
    (mapResults [⟨0, "Bonjour"⟩] 0
        [⟨0, 1000, "Hello"⟩, ⟨1000, 2000, "World"⟩])[1]? =
      some ⟨1000, 2000, "World", "World"⟩ :=
  (c2_identity_fallback_per_position [⟨0, "Bonjour"⟩]
    [⟨0, 1000, "Hello"⟩, ⟨1000, 2000, "World"⟩] 1
    ⟨1000, 2000, "World"⟩ (by decide)).1 (by decide)

/-- Witness for C3: a parse oracle that always fails yields the identity
translation for the window's only segment. -/
theorem c3_translate_parse_failure_witness :
    (translateStage (fun _ => none) [⟨0, 1000, "Hello"⟩] "not json")[0]? =
      some ⟨0, 1000, "Hello", "Hello"⟩ :=
  (c3_translate_parse_failure_yields_identity (fun _ => none)
    [⟨0, 1000, "Hello"⟩] "not json" rfl).2 0 ⟨0, 1000, "Hello"⟩ (by decide)

/-- Witness for C4 (scenario C): a three-item window with `remove_ids = [1]`
filters down to the items at indices 0 and 2, a sublist of the input. -/
theorem c4_filter_witness :
    (filterStage (fun _ => some ⟨[1]⟩) sampleBatch "reply" =
      ((sampleBatch.enum.filter
        (fun p => !((⟨[1]⟩ : FilterResponse).remove_ids.contains p.1))).map Prod.snd) ∧
     List.Sublist (filterStage (fun _ => some ⟨[1]⟩) sampleBatch "reply") sampleBatch) ∧
    ((sampleBatch.enum.filter
        (fun p => !((⟨[1]⟩ : FilterResponse).remove_ids.contains p.1))).map Prod.snd =
      [⟨0, 1, "a", "ta"⟩, ⟨2, 3, "c", "tc"⟩]) :=
  ⟨(c4_filter_removes_exactly_the_listed_indices).1 (fun _ => some ⟨[1]⟩)
      sampleBatch "reply" ⟨[1]⟩ rfl,
   by decide⟩

/-- Witness for C5: a filter parse oracle that always fails leaves the
window unchanged. -/
theorem c5_filter_fails_open_witness :
    filterStage (fun _ => none) sampleBatch "garbage" = sampleBatch :=
  c5_filter_decode_failure_fails_open (fun _ => none) sampleBatch "garbage" rfl

/-- Witness for C6 (scenario D): the server rejects schema mode once with
the retry signature; the client sends exactly the original body and the
body with `response_format` removed, and the call succeeds. -/
theorem c6_openai_schema_retry_witness :
    (chat_completion_openai sampleBody sampleServer).1 =
      [sampleBody, stripRespFormat sampleBody] ∧
    (chat_completion_openai sampleBody sampleServer).2 = Except.ok "ok-content" := by
  have h := (c6_openai_schema_retry_exactly_once sampleBody sampleServer).2.2.2
    "response_format must be json_schema or text" (by decide) (by decide)
  exact ⟨h.1, h.2.1 "ok-content" (by decide)⟩

/-- Witness for C7: the surviving segment of a one-segment window keeps the
input's start, end and source text. -/
theorem c7_pass_through_witness :
    ∃ (j : Nat) (seg : TranscriptSegment),
      ([⟨0, 1000, "Hello"⟩] : List TranscriptSegment)[j]? = some seg ∧
      (⟨0, 1000, "Hello", "Bonjour"⟩ : TranslatedSegment).start = seg.start ∧
      (⟨0, 1000, "Hello", "Bonjour"⟩ : TranslatedSegment).end_ = seg.end_ ∧
      (⟨0, 1000, "Hello", "Bonjour"⟩ : TranslatedSegment).original = seg.text :=
  (c7_timestamps_and_original_pass_through).1 [⟨0, 1000, "Hello"⟩] sampleReplies
    ⟨0, 1000, "Hello", "Bonjour"⟩ (by decide)

/-- Witness for C8: two window outputs with the same translated texts (and
different timestamps and originals) produce the same summary update. -/
theorem c8_summary_depends_on_translated_text_witness :
    updateSummary (fun s => s) "prior" [⟨0, 1, "a", "x"⟩] =
      updateSummary (fun s => s) "prior" [⟨5, 6, "b", "x"⟩] :=
  (c8_rolling_summary_sequential_threading).2.2.2 (fun s => s) "prior"
    [⟨0, 1, "a", "x"⟩] [⟨5, 6, "b", "x"⟩] (by decide)

/-- Witness for C9: with one reply line, position 0 becomes that line
trimmed. -/
theorem c9_edit_line_mapping_witness :
    (editLoop ["edited line"] 0 [⟨0, 1, "orig", "prior"⟩])[0]? =
      some ⟨0, 1, "orig", String.trim "edited line"⟩ := by
  have h := ((c9_edit_positionwise_line_mapping [⟨0, 1, "orig", "prior"⟩]
    "ignored").2 ["edited line"]).2 0 ⟨0, 1, "orig", "prior"⟩ (by decide)
  exact h.1 "edited line" (by decide)

/-- Witness for C10: a selector without a slash keeps the whole string as
provider id with model name `default`; one with a slash splits at it. -/
theorem c10_model_selector_witness :
    parseModelSelector "ollama" = ("ollama", "default") ∧
    parseModelSelector "openai/gpt-4o" =
      (String.mk ['o', 'p', 'e', 'n', 'a', 'i'],
       String.mk ['g', 'p', 't', '-', '4', 'o']) :=
  ⟨(c10_model_selector_first_slash_split "ollama").1 (by decide),
   (c10_model_selector_first_slash_split "openai/gpt-4o").2
     ['o', 'p', 'e', 'n', 'a', 'i'] ['g', 'p', 't', '-', '4', 'o']
     (by decide) (by decide)⟩

end Soksak
